import Mathlib

/-!
Verification of the Template & Instance Resolution Engine of
GoogleCloudPlatform/solutions-cloud-orchestrate.

The definitions below are a shallow embedding of
`src/api/orchestrateapi/commands/templates/create.py` and
`src/api/orchestrateapi/commands/instances/create.py`.  Python strings are
Lean `String`s; Python dicts with string keys are ordered association lists
(insertion order preserved, in-place value update — the semantics of CPython
dicts); the Google Compute backend (`compute.…().execute()` calls) is a
record of explicit functions, and an HTTP failure of a backend call is an
`Except` error carrying the HTTP status code.  Randomness (`uuid.uuid4()`)
is passed in as an explicit `uuid_hex` argument.  All string primitives used
by the Python code (`split`, `join`, `replace`, `startswith`, `endswith`,
`lower`, `str.format`) are re-implemented structurally over `List Char` so
that every definition evaluates inside the kernel.
-/

/-- Python `dict.get(k)`: first (and only, keys are unique) binding of `k`. -/
def dictGet : List (String × String) → String → Option String
  | [], _ => none
  | (k', v') :: rest, k => if k' = k then some v' else dictGet rest k

/-- Python `d[k] = v` on an insertion-ordered dict: update the value in place
if the key is present, otherwise append a new binding. -/
def dictInsert : List (String × String) → String → String → List (String × String)
  | [], k, v => [(k, v)]
  | (k', v') :: rest, k, v =>
      if k' = k then (k, v) :: rest else (k', v') :: dictInsert rest k v

/-- Python `s.startswith(p)`. -/
def pyStartsWith (s p : String) : Bool := p.data.isPrefixOf s.data

/-- Python `s.endswith(p)`. -/
def pyEndsWith (s p : String) : Bool := p.data.isSuffixOf s.data

/-- Python `s.lower()` (ASCII; every string the engine lower-cases is ASCII). -/
def pyLower (s : String) : String := String.mk (s.data.map Char.toLower)

/-- Python `s[:n]`. -/
def pyTake (s : String) (n : Nat) : String := String.mk (s.data.take n)

/-- Python `'sep'.join l`. -/
def pyJoin (sep : String) : List String → String
  | [] => ""
  | [x] => x
  | x :: xs => x ++ sep ++ pyJoin sep xs

/-- Python `s.split('-')` (single-character separator, no maxsplit). -/
def splitCharAux (sep : Char) : List Char → List (List Char)
  | [] => [[]]
  | c :: rest =>
      let r := splitCharAux sep rest
      if c = sep then [] :: r
      else
        match r with
        | [] => [[c]]
        | g :: gs => (c :: g) :: gs

/-- Python `s.split('-')` as a list of strings. -/
def pySplitDash (s : String) : List String := (splitCharAux '-' s.data).map String.mk

/-- Fuel-driven core of Python `s.replace(pat, repl)`: replaces every
non-overlapping occurrence, scanning left to right. -/
def replaceAux (pat repl : List Char) : Nat → List Char → List Char
  | _, [] => []
  | 0, l => l
  | fuel + 1, c :: rest =>
      if pat.isPrefixOf (c :: rest) then
        repl ++ replaceAux pat repl fuel ((c :: rest).drop pat.length)
      else
        c :: replaceAux pat repl fuel rest

/-- Python `s.replace(pat, repl)` for a non-empty `pat`. -/
def pyReplace (s pat repl : String) : String :=
  String.mk (replaceAux pat.data repl.data s.data.length s.data)

/-- Fuel-driven core of Python `str.format(**kwargs)` restricted to the shape
the engine uses: plain `\x7bname\x7d` fields (no conversion or format spec)
and the `\x7b\x7b` / `\x7d\x7d` escapes.  A reference to a name missing from
`vars` is a `KeyError`, a stray brace a `ValueError`; both yield `none`. -/
def formatAux (vars : List (String × String)) : Nat → List Char → Option (List Char)
  | 0, _ => none
  | _ + 1, [] => some []
  | fuel + 1, '\x7b' :: rest =>
      match rest with
      | '\x7b' :: rest2 => (formatAux vars fuel rest2).map (fun t => '\x7b' :: t)
      | _ =>
          let arg := rest.takeWhile (fun c => c ≠ '\x7d')
          match rest.dropWhile (fun c => c ≠ '\x7d') with
          | '\x7d' :: rest3 =>
              match dictGet vars (String.mk arg) with
              | some v => (formatAux vars fuel rest3).map (fun t => v.data ++ t)
              | none => none
          | _ => none
  | fuel + 1, '\x7d' :: rest =>
      match rest with
      | '\x7d' :: rest2 => (formatAux vars fuel rest2).map (fun t => '\x7d' :: t)
      | _ => none
  | fuel + 1, c :: rest => (formatAux vars fuel rest).map (fun t => c :: t)

/-- Python `s.format(**vars)`. -/
def pyFormat (s : String) (vars : List (String × String)) : Option String :=
  (formatAux vars (s.data.length + 1) s.data).map String.mk

/-- Fuel-driven core of Python `s.split(sep)` for a non-empty separator. -/
def splitSubAux (sep : List Char) : Nat → List Char → List (List Char)
  | _, [] => [[]]
  | 0, l => [l]
  | fuel + 1, c :: rest =>
      if sep.isPrefixOf (c :: rest) then
        [] :: splitSubAux sep fuel ((c :: rest).drop sep.length)
      else
        match splitSubAux sep fuel rest with
        | [] => [[c]]
        | g :: gs => (c :: g) :: gs

/-- Python `s.split(sep)` for a non-empty separator. -/
def pySplitOn (s sep : String) : List String :=
  (splitSubAux sep.data s.data.length s.data).map String.mk

/-- Split `s` at the LAST occurrence of `sep`, returning the text before and
after it; `none` when `sep` does not occur.  (Helper for the greedy-regex
semantics of `parse_image_link`.) -/
def splitOnLast (s sep : String) : Option (String × String) :=
  match (pySplitOn s sep).reverse with
  | [] => none
  | [_] => none
  | last :: rest => some (pyJoin sep rest.reverse, last)

/-! ## Data model

Request messages (`orchestrate_pb2.Template`, `.Size`, `.Instance`) are
generated protobuf code not present under `src/`; their field sets are
modelled from the attribute accesses in the two `create.py` files and from
the boundary operations listed in the spec (proto3 scalar defaults: `""` for
strings, `0` for ints, `false` for bools).  Wire payloads and the objects the
Compute backend returns are modelled as records mirroring the dict shapes the
code builds and reads. -/

/-- One size of an Orchestrate template (request message). -/
structure Size where
  name : String
  cpus : Nat
  memory : Nat
  disk_size : Nat
  gpu_type : String
  gpu_count : Nat
deriving Repr, DecidableEq

/-- An Orchestrate template creation request message. -/
structure Template where
  name : String
  project : String
  zone : String
  image_project : String
  image_family : String
  network : String
  default_size_name : String
  instance_name_pattern : String
  metadata : List (String × String)
  sizes : List Size
deriving Repr, DecidableEq

/-- An Orchestrate instance creation request message. -/
structure Instance where
  project : String
  zone : String
  template : String
  size : String
  name : String
  metadata : List (String × String)
  use_latest_image : Bool
  use_external_ip : Bool
deriving Repr, DecidableEq

/-- One `accessConfigs` element of a network interface. -/
structure AccessConfig where
  name : String
  type : String
  networkTier : String
deriving Repr, DecidableEq

/-- A `networkInterfaces` element; `accessConfigs = none` models the absence
of the `accessConfigs` key in the dict. -/
structure NetworkInterface where
  network : String
  subnetwork : String
  accessConfigs : Option (List AccessConfig) := none
deriving Repr, DecidableEq

/-- `disks[].initializeParams`. -/
structure InitializeParams where
  sourceImage : String
  diskType : String
  diskSizeGb : Nat
deriving Repr, DecidableEq

/-- A `disks` element. -/
structure Disk where
  type : String
  boot : Bool
  mode : String
  autoDelete : Bool
  initializeParams : InitializeParams
deriving Repr, DecidableEq

/-- A `guestAccelerators` element. -/
structure GuestAccelerator where
  acceleratorType : String
  acceleratorCount : Nat
deriving Repr, DecidableEq

/-- `scheduling` block. -/
structure Scheduling where
  preemptible : Bool
  onHostMaintenance : String
  automaticRestart : Bool
deriving Repr, DecidableEq

/-- A `serviceAccounts` element. -/
structure ServiceAccount where
  email : String
  scopes : List String
deriving Repr, DecidableEq

/-- The `properties` block of an instanceTemplate.  An `Option` field models
the presence/absence of the corresponding dict key (the instance-creation
code copies only the keys that are present); `metadata` is the
`metadata.items` list of key/value pairs.  Metadata values are strings: the
wire format for `metadata.items[].value` is a string, so the Python scalars
the template code puts there arrive as their JSON spellings (`true`,
`false`, decimal digits). -/
structure Properties where
  metadata : List (String × String)
  machineType : Option String := none
  tags : Option (List String) := none
  canIpForward : Option Bool := none
  networkInterfaces : Option (List NetworkInterface) := none
  labels : Option (List (String × String)) := none
  scheduling : Option Scheduling := none
  deletionProtection : Option Bool := none
  serviceAccounts : Option (List ServiceAccount) := none
  guestAccelerators : Option (List GuestAccelerator) := none
  disks : Option (List Disk) := none
deriving Repr, DecidableEq

/-- An instanceTemplate as stored in / returned by the Compute catalog. -/
structure StoredTemplate where
  name : String
  properties : Properties
deriving Repr, DecidableEq

/-- The body of an `instanceTemplates.insert` call. -/
structure TemplatePayload where
  name : String
  description : String
  properties : Properties
deriving Repr, DecidableEq

/-- The body of an `instances.insert` call (shape assembled by
`build_instance_payload`; `machineType`, `networkInterfaces`, `disks` and
`metadata` are always set by the code, the rest are copied from the template
when present). -/
structure InstancePayload where
  name : String
  description : String
  machineType : String
  tags : Option (List String) := none
  canIpForward : Option Bool := none
  networkInterfaces : List NetworkInterface
  labels : Option (List (String × String)) := none
  scheduling : Option Scheduling := none
  deletionProtection : Option Bool := none
  serviceAccounts : Option (List ServiceAccount) := none
  guestAccelerators : Option (List GuestAccelerator) := none
  disks : List Disk
  metadata : List (String × String)
deriving Repr, DecidableEq

/-- An image object returned by `images.get` / `images.getFromFamily`. -/
structure Image where
  selfLink : String
  family : String
  labels : List (String × String) := []
deriving Repr, DecidableEq

/-- Errors of the engine.  `creationError` is
`OrchestrateTemplateCreationError` / `OrchestrateInstanceCreationError`
carrying its message; `httpError` is a `googleapiclient.errors.HttpError`
carrying the HTTP status of the failed backend call; `pyError` is an
uncaught Python runtime exception (KeyError, ValueError,
UnboundLocalError, AttributeError). -/
inductive ApiError where
  | creationError (msg : String)
  | httpError (status : Nat)
  | pyError (msg : String)
deriving Repr, DecidableEq

/-- The external collaborators of the engine: the Compute Resource Catalog
and the Accelerator Catalog, plus the `environ.ORCHESTRATE_BUCKET` setting
(the `environ` module is not under `src/`; the bucket is modelled from the
spec's description of the configuration singleton as an opaque string).
`acceleratorTypes` is the list of `name`s returned by
`acceleratorTypes().list(project, zone)`; `instanceTemplates` is the store
backing `instanceTemplates().get/list` (the list call's
`name = "prefix-*"` filter is prefix matching); the two insert functions
return the HTTP status on failure. -/
structure Backend where
  acceleratorTypes : String → String → List String
  images_get : String → String → Except Nat Image
  images_getFromFamily : String → String → Except Nat Image
  instanceTemplates : List StoredTemplate
  insertTemplate : TemplatePayload → Except Nat Unit
  insertInstance : InstancePayload → Except Nat Unit
  bucket : String

/-! ## `src/api/orchestrateapi/commands/templates/create.py` -/

/-- Response of `CreateTemplate` (the random `request_id` is omitted). -/
structure CreateTemplateResponse where
  status : String
deriving Repr, DecidableEq

/-- Response of `CreateInstance` (the random `request_id` is omitted). -/
structure CreateInstanceResponse where
  status : String
  name : String
deriving Repr, DecidableEq

/-- `validate_metadata(template, size)`: when the size requests a GPU type,
look it up among the accelerator types available in the template's
project/zone and raise `OrchestrateTemplateCreationError` when absent. -/
def validate_metadata (b : Backend) (template : Template) (size : Size) :
    Except ApiError Unit :=
  if size.gpu_type ≠ "" then
    let gpu_types := b.acceleratorTypes template.project template.zone
    if size.gpu_type ∈ gpu_types then .ok ()
    else
      .error (.creationError (size.gpu_type ++
        " is not a valid GPU type or is not available in project " ++
        template.image_project ++ " zone " ++ template.zone ++
        ". Available options are: " ++ pyJoin ", " gpu_types))
  else .ok ()

/-- The first loop of `run`: `for size in template.sizes:
validate_metadata(template, size)` — stops at the first failure. -/
def validateSizes (b : Backend) (template : Template) : List Size → Except ApiError Unit
  | [] => .ok ()
  | s :: rest =>
      match validate_metadata b template s with
      | .error e => .error e
      | .ok _ => validateSizes b template rest

/-- `build_template_payload(template, size)`: resolve the latest image of the
template's image family and assemble the `instanceTemplates.insert` body. -/
def build_template_payload (b : Backend) (template : Template) (size : Size) :
    Except ApiError TemplatePayload :=
  let name := template.name ++ "-" ++ size.name
  match b.images_getFromFamily template.image_project template.image_family with
  | .error status => .error (.httpError status)
  | .ok response =>
      let source_image := response.selfLink
      let memory := size.memory * 1024
      let disk_size := size.disk_size
      let machine_type := "custom-" ++ toString size.cpus ++ "-" ++ toString memory
      let is_default_size := size.name = template.default_size_name
      let metadata := template.metadata ++
        [("orchestrate_template", "true"),
         ("orchestrate_default_size", if is_default_size then "true" else "false"),
         ("orchestrate_machine_type", machine_type),
         ("orchestrate_gpu_type", size.gpu_type),
         ("orchestrate_gpu_count", toString size.gpu_count),
         ("orchestrate_network", template.network)] ++
        (if template.instance_name_pattern ≠ "" then
          [("orchestrate_instance_name_pattern", template.instance_name_pattern)]
        else [])
      let region := pyJoin "-" ((pySplitDash template.zone).take 2)
      let region_url := "projects/" ++ template.project ++ "/regions/" ++ region
      let network := "projects/" ++ template.project ++ "/global/networks/" ++
        template.network
      let subnetwork := region_url ++ "/subnetworks/" ++ template.network
      let guest_accelerators : List GuestAccelerator :=
        if size.gpu_type ≠ "" then
          [{ acceleratorType := size.gpu_type, acceleratorCount := size.gpu_count }]
        else []
      .ok
        { name := name
          description := "Orchestrate template " ++ name ++ " size " ++ size.name
          properties :=
            { metadata := metadata
              tags := some ["https-server"]
              canIpForward := some true
              networkInterfaces := some
                [{ network := network
                   subnetwork := subnetwork
                   accessConfigs := some
                     [{ name := "External NAT"
                        type := "ONE_TO_ONE_NAT"
                        networkTier := "PREMIUM" }] }]
              labels := some []
              scheduling := some
                { preemptible := false
                  onHostMaintenance := "TERMINATE"
                  automaticRestart := true }
              deletionProtection := some false
              serviceAccounts := some
                [{ email := "orchestrate@" ++ template.project ++
                     ".iam.gserviceaccount.com"
                   scopes :=
                     ["https://www.googleapis.com/auth/devstorage.read_only",
                      "https://www.googleapis.com/auth/logging.write",
                      "https://www.googleapis.com/auth/monitoring.write",
                      "https://www.googleapis.com/auth/servicecontrol",
                      "https://www.googleapis.com/auth/service.management.readonly",
                      "https://www.googleapis.com/auth/trace.append",
                      "https://www.googleapis.com/auth/compute",
                      "https://www.googleapis.com/auth/cloud-platform"] }]
              machineType := some "n1-standard-8"
              guestAccelerators := some guest_accelerators
              disks := some
                [{ type := "PERSISTENT"
                   boot := true
                   mode := "READ_WRITE"
                   autoDelete := true
                   initializeParams :=
                     { sourceImage := source_image
                       diskType := "pd-standard"
                       diskSizeGb := disk_size } }] } }

/-- `create_template_size(template, size)`: build the payload and submit it.
The second component records the `instanceTemplates.insert` calls made (the
body is logged whether or not the backend accepts it). -/
def create_template_size (b : Backend) (template : Template) (size : Size) :
    Except ApiError Unit × List TemplatePayload :=
  match build_template_payload b template size with
  | .error e => (.error e, [])
  | .ok payload =>
      match b.insertTemplate payload with
      | .error status => (.error (.httpError status), [payload])
      | .ok _ => (.ok (), [payload])

/-- The second loop of `run`: `for size in template.sizes:
create_template_size(template, size)` — sequential, stops at the first
failure.  Accumulates the insert calls made. -/
def createSizes (b : Backend) (template : Template) :
    List Size → Except ApiError Unit × List TemplatePayload
  | [] => (.ok (), [])
  | s :: rest =>
      match create_template_size b template s with
      | (.error e, log) => (.error e, log)
      | (.ok _, log) =>
          let r := createSizes b template rest
          (r.1, log ++ r.2)

/-- The `except errors.HttpError` handler of `run` (templates/create.py
lines 74-80): a 409 becomes `OrchestrateTemplateCreationError`, any other
`HttpError` is re-raised unchanged; non-HTTP exceptions (in particular the
validation error) are not caught. -/
def catchConflictTemplate (name : String) : ApiError → ApiError
  | .httpError 409 =>
      .creationError ("A template with name " ++ name ++ " already exists.")
  | e => e

/-- `run(request, context)` of templates/create.py: validate every size,
then create every size; the whole body runs inside the conflict handler.
The second component records every `instanceTemplates.insert` call made. -/
def runCreateTemplate (b : Backend) (template : Template) :
    Except ApiError CreateTemplateResponse × List TemplatePayload :=
  match validateSizes b template template.sizes with
  | .error e => (.error (catchConflictTemplate template.name e), [])
  | .ok _ =>
      match createSizes b template template.sizes with
      | (.ok _, log) => (.ok { status := "CREATED" }, log)
      | (.error e, log) => (.error (catchConflictTemplate template.name e), log)

/-! ## `src/api/orchestrateapi/commands/instances/create.py`

The Python identifier `instance` is a Lean keyword, so the request parameter
is named `inst` and the `Metadata.instance` field `instance_`. -/

/-- The three metadata groups of class `Metadata`. -/
structure Metadata where
  instance_ : List (String × String)
  instance_payload : List (String × String)
  orchestrate : List (String × String)
deriving Repr, DecidableEq

/-- Loop 1 of `Metadata.parse`: classify the template's stored metadata
items — `orchestrate_`-prefixed keys go to the orchestrate group with
`key.replace('orchestrate_', '')` applied, everything else to the
instance dict and, in order, to the payload list. -/
def metadataFromTemplate : List (String × String) → Metadata → Metadata
  | [], m => m
  | (k, v) :: rest, m =>
      if pyStartsWith k "orchestrate_" then
        metadataFromTemplate rest
          { m with orchestrate := dictInsert m.orchestrate (pyReplace k "orchestrate_" "") v }
      else
        metadataFromTemplate rest
          { m with instance_ := dictInsert m.instance_ k v
                   instance_payload := m.instance_payload ++ [(k, v)] }

/-- Loop 2 of `Metadata.parse`: every metadata item supplied with the
instance-creation request overwrites the instance dict entry for its key and
is appended to the payload list. -/
def metadataFromInstance : List (String × String) → Metadata → Metadata
  | [], m => m
  | (k, v) :: rest, m =>
      metadataFromInstance rest
        { m with instance_ := dictInsert m.instance_ k v
                 instance_payload := m.instance_payload ++ [(k, v)] }

/-- `Metadata.parse(instance, template)`. -/
def Metadata.parse (inst : Instance) (template : StoredTemplate) : Metadata :=
  metadataFromInstance inst.metadata
    (metadataFromTemplate template.properties.metadata
      { instance_ := [], instance_payload := [], orchestrate := [] })

/-- The fixed list of known Linux family-name prefixes of `get_os_type`. -/
def linux_families : List String :=
  ["centos", "debian", "rhel", "sles", "cos", "coreos", "ubuntu"]

/-- Stages 2-3 of `get_os_type`: guess from the first hyphen-delimited
segment of the family name, or fail. -/
def get_os_type_from_family (image : Image) : Except ApiError String :=
  let family := (pySplitDash image.family).headD ""
  if family = "windows" then .ok "windows"
  else if family ∈ linux_families then .ok "linux"
  else
    .error (.creationError ("Image " ++ image.selfLink ++
      " does not have a orchestrate_os label. And, could not guess the OS" ++
      " from the family name based on GCP image family naming" ++
      " conventions, e.g. windows-, centos-, etc. Please add a orchestrate_os" ++
      " label and set it to either \"linux\" or \"windows\" to indicate the base OS" ++
      " for this image. Or, rename the image family to include a prefix with" ++
      " the base OS name."))

/-- `get_os_type(image)`: a non-empty `orchestrate_os` label is
authoritative (Python truthiness: an empty label value falls through),
otherwise classify by family-name prefix. -/
def get_os_type (image : Image) : Except ApiError String :=
  match dictGet image.labels "orchestrate_os" with
  | some os_type =>
      if os_type ≠ "" then .ok (pyLower os_type) else get_os_type_from_family image
  | none => get_os_type_from_family image

/-- `set_startup_script(metadata, image)`: pick the startup-script metadata
key by OS type and inject the default script location unless the key is
already present in the instance metadata. -/
def set_startup_script (b : Backend) (metadata : Metadata) (image : Image) :
    Except ApiError Metadata :=
  match get_os_type image with
  | .error e => .error e
  | .ok os_type =>
      let key := if os_type = "windows" then "windows-startup-script-url"
                 else "startup-script-url"
      let extension := if os_type = "windows" then "ps1" else "py"
      match dictGet metadata.instance_ key with
      | some _ => .ok metadata
      | none =>
          let script := "gs://" ++ b.bucket ++ "/remotedesktopconfigure." ++ extension
          .ok { metadata with
                  instance_ := dictInsert metadata.instance_ key script
                  instance_payload := metadata.instance_payload ++ [(key, script)] }

/-- The `re.match(r'.*/projects/(?P<project>.*)/global/images/(?P<version>.*)',
link)` extraction of `get_images`: with greedy groups the version is the text
after the last `/global/images/`, and the project the text after the last
`/projects/` before it; `none` when the regex does not match. -/
def parse_image_link (link : String) : Option (String × String) :=
  match splitOnLast link "/global/images/" with
  | none => none
  | some (before, version) =>
      match splitOnLast before "/projects/" with
      | none => none
      | some (_, project) => some (project, version)

/-- `get_images(parameters)`: parse the stored source-image link, fetch that
image, then fetch the latest image of its family. -/
def get_images (b : Backend) (parameters : InitializeParams) :
    Except ApiError (Image × Image) :=
  let link := parameters.sourceImage
  match parse_image_link link with
  | none => .error (.pyError "AttributeError: NoneType has no attribute group")
  | some (project, version) =>
      match b.images_get project version with
      | .error status => .error (.httpError status)
      | .ok image =>
          match b.images_getFromFamily project image.family with
          | .error status => .error (.httpError status)
          | .ok latest => .ok (image, latest)

/-- `get_boot_images(disks)`: resolve images for the first boot disk. -/
def get_boot_images (b : Backend) (disks : List Disk) :
    Except ApiError (Image × Image) :=
  match disks.find? (fun disk => disk.boot) with
  | some disk => get_images b disk.initializeParams
  | none => .error (.creationError "Template has no boot disk.")

/-- The test of `get_template`'s default-size scan: some metadata item of
the stored template is `orchestrate_default_size = "true"`.  (The Python
inner loop returns the template at the first such item; finding one is all
that matters.) -/
def hasDefaultSizeMark (t : StoredTemplate) : Bool :=
  t.properties.metadata.any
    (fun item => item.1 == "orchestrate_default_size" && item.2 == "true")

/-- `get_template(instance)`: with an explicit size, fetch the
instanceTemplate named `template-size` (a missing one is the backend's 404);
without one, list the templates whose name matches `template-*` and return
the first carrying the reserved item `orchestrate_default_size = "true"`. -/
def get_template (b : Backend) (inst : Instance) : Except ApiError StoredTemplate :=
  if inst.size = "" then
    let templates := b.instanceTemplates.filter
      (fun t => pyStartsWith t.name (inst.template ++ "-"))
    match templates.find? hasDefaultSizeMark with
    | some template => .ok template
    | none =>
        .error (.creationError ("Could not locate default size for project " ++
          inst.project ++ " template " ++ inst.template ++
          ". Please specify an explicit size in the request."))
  else
    let name := inst.template ++ "-" ++ inst.size
    match b.instanceTemplates.find? (fun t => t.name = name) with
    | some template => .ok template
    | none => .error (.httpError 404)

/-- The substitution variables `build_name` hands to `str.format`, in the
source's keyword order.  `unique_id` is `uuid.uuid4().hex[:5]`; `gpu_count`
defaults to `0` (formatted as `"0"`) and `gpu_type` to `""` when the
reserved entries are absent. -/
def buildNameVars (inst : Instance) (orchestrate_metadata : List (String × String))
    (uuid_hex : String) : List (String × String) :=
  let unique_id := pyTake uuid_hex 5
  let gpu_count := (dictGet orchestrate_metadata "gpu_count").getD "0"
  let gpu_type := (dictGet orchestrate_metadata "gpu_type").getD ""
  let graphics_type := if pyEndsWith gpu_type "-vws" then "vws" else "gpu"
  let gpu_name :=
    if pyEndsWith gpu_type "-vws" then pyTake gpu_type (gpu_type.data.length - 4)
    else gpu_type
  let region := pyJoin "-" ((pySplitDash inst.zone).take 2)
  [("template", inst.template), ("size", inst.size), ("region", region),
   ("zone", inst.zone), ("type", graphics_type), ("gpu_name", gpu_name),
   ("gpu_count", gpu_count), ("gpu_type", gpu_type), ("user", unique_id),
   ("id", unique_id)]

/-- `build_name(instance, orchestrate_metadata)`: choose the pattern —
explicit request name, else the stored `instance_name_pattern`, else the
default `\x7btemplate\x7d-\x7bsize\x7d-\x7bid\x7d` — and expand it with
`str.format`.  `uuid_hex` stands for `uuid.uuid4().hex`; `none` models the
uncaught exception `str.format` raises on an unknown field or stray brace. -/
def build_name (inst : Instance) (orchestrate_metadata : List (String × String))
    (uuid_hex : String) : Option String :=
  let instance_name_pattern := dictGet orchestrate_metadata "instance_name_pattern"
  let default_pattern := "\x7btemplate\x7d-\x7bsize\x7d-\x7bid\x7d"
  let name_pattern :=
    if inst.name ≠ "" then inst.name
    else
      match instance_name_pattern with
      | some p => if p ≠ "" then p else default_pattern
      | none => default_pattern
  pyFormat name_pattern (buildNameVars inst orchestrate_metadata uuid_hex)

/-- `build_instance_payload(instance)`: resolve the stored template, merge
metadata, choose the name, copy the whitelisted template properties, expand
machine/accelerator/disk types into zone-scoped URLs, substitute the latest
boot image when requested, rewrite the network interfaces, and inject the
startup script.  Accessing a missing `disks`/`networkInterfaces` key is a
Python KeyError. -/
def build_instance_payload (b : Backend) (inst : Instance) (uuid_hex : String) :
    Except ApiError InstancePayload :=
  match get_template b inst with
  | .error e => .error e
  | .ok template =>
    let metadata := Metadata.parse inst template
    match build_name inst metadata.orchestrate uuid_hex with
    | none => .error (.pyError "str.format failed")
    | some name =>
      let region := pyJoin "-" ((pySplitDash inst.zone).take 2)
      let region_url := "projects/" ++ inst.project ++ "/regions/" ++ region
      let zone_url := "projects/" ++ inst.project ++ "/zones/" ++ inst.zone
      let properties := template.properties
      match properties.disks with
      | none => .error (.pyError "KeyError: disks")
      | some disks =>
        match get_boot_images b disks with
        | .error e => .error e
        | .ok (boot_image, boot_image_latest) =>
          match properties.networkInterfaces with
          | none => .error (.pyError "KeyError: networkInterfaces")
          | some interfaces =>
            let machine_type :=
              (dictGet metadata.orchestrate "machine_type").getD "n1-standard-8"
            let machineType := zone_url ++ "/machineTypes/" ++ machine_type
            let guestAccelerators := properties.guestAccelerators.map
              (fun accelerators => accelerators.map (fun accelerator =>
                { accelerator with acceleratorType :=
                    zone_url ++ "/acceleratorTypes/" ++ accelerator.acceleratorType }))
            let disks2 := disks.map (fun disk =>
              let parameters := disk.initializeParams
              let parameters :=
                { parameters with diskType :=
                    zone_url ++ "/diskTypes/" ++ parameters.diskType }
              let parameters :=
                if disk.boot && inst.use_latest_image then
                  { parameters with sourceImage := boot_image_latest.selfLink }
                else parameters
              { disk with initializeParams := parameters })
            let network := (dictGet metadata.orchestrate "network").getD "default"
            let interfaces2 := interfaces.map (fun interface =>
              let interface :=
                { interface with
                    network := "global/networks/" ++ network
                    subnetwork := region_url ++ "/subnetworks/" ++ network }
              if !inst.use_external_ip && interface.accessConfigs.isSome then
                { interface with accessConfigs := none }
              else interface)
            match set_startup_script b metadata
                (if inst.use_latest_image then boot_image_latest else boot_image) with
            | .error e => .error e
            | .ok metadata2 =>
              .ok { name := name
                    description := "Orchestrate instance created from template " ++
                      inst.template ++ " size " ++ inst.size
                    machineType := machineType
                    tags := properties.tags
                    canIpForward := properties.canIpForward
                    networkInterfaces := interfaces2
                    labels := properties.labels
                    scheduling := properties.scheduling
                    deletionProtection := properties.deletionProtection
                    serviceAccounts := properties.serviceAccounts
                    guestAccelerators := guestAccelerators
                    disks := disks2
                    metadata := metadata2.instance_payload }

/-- `run(request, context)` of instances/create.py.  The `except HttpError`
handler (lines 75-81) reads `payload['name']` for the 409 message, so a 409
raised before `payload` was bound (i.e. inside `build_instance_payload`)
hits the unbound local instead.  The second component records every
`instances.insert` call made. -/
def runCreateInstance (b : Backend) (inst : Instance) (uuid_hex : String) :
    Except ApiError CreateInstanceResponse × List InstancePayload :=
  match build_instance_payload b inst uuid_hex with
  | .error e =>
      match e with
      | .httpError 409 => (.error (.pyError "UnboundLocalError: payload"), [])
      | e => (.error e, [])
  | .ok payload =>
      match b.insertInstance payload with
      | .ok _ => (.ok { status := "SUBMITTED", name := payload.name }, [payload])
      | .error status =>
          if status = 409 then
            (.error (.creationError ("An instance with name " ++ payload.name ++
              " already exists.")), [payload])
          else (.error (.httpError status), [payload])

example : dictInsert [("a", "1"), ("b", "2")] "a" "9" = [("a", "9"), ("b", "2")] := by decide
example : pyReplace "orchestrate_a_orchestrate_b" "orchestrate_" "" = "a_b" := by decide
example : pySplitDash "us-central1-a" = ["us", "central1", "a"] := by decide
example : pyJoin "-" ((pySplitDash "us-central1-a").take 2) = "us-central1" := by decide
example : pyFormat "\x7ba\x7d-\x7bb\x7d" [("a", "x"), ("b", "y")] = some "x-y" := by decide
example : splitOnLast "p/projects/q/global/images/r" "/projects/" = some ("p", "q/global/images/r") := by decide


/-! ## Concrete scenario: the spec's `vfx` template family

Inputs used by the witnesses and counterexamples below.  The stored
instanceTemplates are obtained by actually running the template-creation
path on the `vfx` request, so the instance-resolution claims are checked
against exactly what `CreateTemplate` persists. -/

/-- The `small` size of the spec's example scenario. -/
def vfxSmall : Size :=
  { name := "small", cpus := 4, memory := 16, disk_size := 100,
    gpu_type := "nvidia-tesla-t4-vws", gpu_count := 1 }

/-- The `large` size of the spec's example scenario. -/
def vfxLarge : Size :=
  { name := "large", cpus := 16, memory := 64, disk_size := 100,
    gpu_type := "nvidia-tesla-t4-vws", gpu_count := 2 }

/-- The `vfx` template request, default size `small`. -/
def vfxTemplate : Template :=
  { name := "vfx", project := "p", zone := "us-central1-a",
    image_project := "ip", image_family := "centos-7", network := "default",
    default_size_name := "small", instance_name_pattern := "",
    metadata := [("c", "1")], sizes := [vfxSmall, vfxLarge] }

/-- The one image of the test catalog (a CentOS image, no labels). -/
def imgCentos : Image :=
  { selfLink := "https://www.googleapis.com/compute/v1/projects/ip/global/images/centos-7-v1",
    family := "centos-7", labels := [] }

/-- Test backend for template creation: one GPU type catalog, one image. -/
def backendT : Backend :=
  { acceleratorTypes := fun _ _ => ["nvidia-tesla-t4-vws", "nvidia-tesla-p4"]
    images_get := fun p v => if p = "ip" ∧ v = "centos-7-v1" then .ok imgCentos else .error 404
    images_getFromFamily := fun p f => if p = "ip" ∧ f = "centos-7" then .ok imgCentos else .error 404
    instanceTemplates := []
    insertTemplate := fun _ => .ok ()
    insertInstance := fun _ => .ok ()
    bucket := "bkt" }

/-- The instanceTemplates the `vfx` creation request persists. -/
def storedVfx : List StoredTemplate :=
  (runCreateTemplate backendT vfxTemplate).2.map
    (fun p => { name := p.name, properties := p.properties })

/-- The stored `vfx-small` instanceTemplate. -/
def storedVfxSmall : StoredTemplate := storedVfx.headD ⟨"", { metadata := [] }⟩

/-- The stored `vfx-large` instanceTemplate. -/
def storedVfxLarge : StoredTemplate := (storedVfx.drop 1).headD ⟨"", { metadata := [] }⟩

/-- Test backend for instance creation: the stored `vfx` templates. -/
def backendI : Backend := { backendT with instanceTemplates := storedVfx }

/-- `CreateInstance(template="vfx")` — no size, no name, no metadata. -/
def instVfx : Instance :=
  { project := "p", zone := "us-central1-a", template := "vfx", size := "",
    name := "", metadata := [], use_latest_image := false, use_external_ip := false }

deriving instance DecidableEq for Except

example : (get_template backendI instVfx).map (fun t => t.name) = .ok "vfx-small" := by decide

/-- A size used by the witness of C1: its GPU type is not in the catalog. -/
def badSize : Size :=
  { name := "huge", cpus := 2, memory := 8, disk_size := 10,
    gpu_type := "nvidia-tesla-v100", gpu_count := 1 }

/-- `vfx` template whose second size requests an unavailable GPU type. -/
def vfxBadTemplate : Template := { vfxTemplate with sizes := [vfxSmall, badSize] }

/-! ## Helper lemmas -/

/-- `validate_metadata` only ever fails with the domain validation error. -/
theorem validate_metadata_error_shape (b : Backend) (t : Template) (s : Size)
    (e : ApiError) (h : validate_metadata b t s = .error e) :
    ∃ msg, e = .creationError msg := by
  unfold validate_metadata at h
  split at h
  · simp only [] at h
    split at h
    · simp at h
    · exact ⟨_, (by simpa using h.symm)⟩
  · simp at h

/-- The validation loop either passes or fails with the validation error. -/
theorem validateSizes_shape (b : Backend) (t : Template) (l : List Size) :
    validateSizes b t l = .ok () ∨
    ∃ msg, validateSizes b t l = .error (.creationError msg) := by
  induction l with
  | nil => exact .inl rfl
  | cons s rest ih =>
      unfold validateSizes
      cases h : validate_metadata b t s with
      | error e =>
          obtain ⟨msg, rfl⟩ := validate_metadata_error_shape b t s e h
          exact .inr ⟨msg, rfl⟩
      | ok _ => simpa using ih

/-- A size with an unavailable GPU type makes the validation loop fail. -/
theorem validateSizes_not_ok (b : Backend) (t : Template) (l : List Size)
    (s : Size) (hs : s ∈ l) (h1 : s.gpu_type ≠ "")
    (h2 : s.gpu_type ∉ b.acceleratorTypes t.project t.zone) :
    validateSizes b t l ≠ .ok () := by
  induction l with
  | nil => cases hs
  | cons a rest ih =>
      unfold validateSizes
      cases hv : validate_metadata b t a with
      | error e => simp
      | ok _ =>
          rcases List.mem_cons.mp hs with rfl | hmem
          · exfalso
            unfold validate_metadata at hv
            rw [if_pos h1] at hv
            rw [if_neg h2] at hv
            simp at hv
          · exact ih hmem

/-! ## C1 -/

/-- C1: if any size in a CreateTemplate request specifies a GPU type absent
from the Accelerator Catalog for the target project/zone, the run fails with
the domain validation error and makes zero `instanceTemplates.insert` calls
— even when other sizes (earlier in the list) validate successfully. -/
theorem c1_validate_all_before_create (b : Backend) (t : Template)
    (h : ∃ s ∈ t.sizes, s.gpu_type ≠ "" ∧
      s.gpu_type ∉ b.acceleratorTypes t.project t.zone) :
    (∃ msg, (runCreateTemplate b t).1 = .error (.creationError msg)) ∧
    (runCreateTemplate b t).2 = [] := by
  obtain ⟨s, hs, h1, h2⟩ := h
  have hne := validateSizes_not_ok b t t.sizes s hs h1 h2
  rcases validateSizes_shape b t t.sizes with hok | ⟨msg, herr⟩
  · exact absurd hok hne
  · unfold runCreateTemplate
    rw [herr]
    exact ⟨⟨msg, rfl⟩, rfl⟩

/-- Witness for C1: the `vfx` request whose first size validates and whose
second requests the unavailable `nvidia-tesla-v100` fails with the
validation error and performs zero insert calls. -/
theorem c1_validate_all_before_create_witness :
    (∃ s ∈ vfxBadTemplate.sizes, s.gpu_type ≠ "" ∧
      s.gpu_type ∉ backendT.acceleratorTypes vfxBadTemplate.project vfxBadTemplate.zone) ∧
    ((∃ msg, (runCreateTemplate backendT vfxBadTemplate).1 = .error (.creationError msg)) ∧
      (runCreateTemplate backendT vfxBadTemplate).2 = []) :=
  ⟨by decide, c1_validate_all_before_create backendT vfxBadTemplate (by decide)⟩

/-- `catchConflictTemplate` leaves a non-409 HTTP error unchanged. -/
theorem catchConflictTemplate_not409 (name : String) (s : Nat) (h : s ≠ 409) :
    catchConflictTemplate name (.httpError s) = .httpError s := by
  unfold catchConflictTemplate
  split
  · next heq => exact absurd (by injection heq) h
  · rfl

/-! ## C4 -/

/-- C4: for every CreateInstance and CreateTemplate submission, a backend
HTTP error with conflict status 409 on the insert call is translated into
the domain-specific already-exists error
(`OrchestrateInstanceCreationError` / `OrchestrateTemplateCreationError`),
and a backend error with any other status propagates unchanged. -/
theorem c4_conflict_translation :
    (∀ (b : Backend) (inst : Instance) (u : String) (payload : InstancePayload) (s : Nat),
      build_instance_payload b inst u = .ok payload →
      b.insertInstance payload = .error s →
      (runCreateInstance b inst u).1 =
        .error (if s = 409 then
            .creationError ("An instance with name " ++ payload.name ++ " already exists.")
          else .httpError s)) ∧
    (∀ (b : Backend) (t : Template) (s : Nat) (log : List TemplatePayload),
      validateSizes b t t.sizes = .ok () →
      createSizes b t t.sizes = (.error (.httpError s), log) →
      (runCreateTemplate b t).1 =
        .error (if s = 409 then
            .creationError ("A template with name " ++ t.name ++ " already exists.")
          else .httpError s)) := by
  constructor
  · intro b inst u payload s hb hi
    unfold runCreateInstance
    rw [hb]
    simp only [hi]
    by_cases h409 : s = 409 <;> simp [h409]
  · intro b t s log hv hc
    unfold runCreateTemplate
    rw [hv, hc]
    by_cases h409 : s = 409
    · subst h409
      simp [catchConflictTemplate]
    · simp [catchConflictTemplate_not409 t.name s h409, h409]

/-- The payload `CreateInstance(template="vfx")` submits in the test
scenario (with `uuid.uuid4().hex = "a1b2c3d4"`). -/
def payloadVfx : InstancePayload :=
  match build_instance_payload backendI instVfx "a1b2c3d4" with
  | .ok p => p
  | .error _ =>
      { name := "", description := "", machineType := "",
        networkInterfaces := [], disks := [], metadata := [] }

/-- Backend whose `instances.insert` always reports a 409 conflict. -/
def backend409I : Backend := { backendI with insertInstance := fun _ => .error 409 }

/-- Backend whose `instanceTemplates.insert` always fails with a 500. -/
def backend500T : Backend := { backendT with insertTemplate := fun _ => .error 500 }

/-- Witness for C4: a 409 on instance insert becomes the already-exists
error; a 500 on template insert propagates unchanged. -/
theorem c4_conflict_translation_witness :
    ((runCreateInstance backend409I instVfx "a1b2c3d4").1 =
      .error (if 409 = 409 then
          .creationError ("An instance with name " ++ payloadVfx.name ++ " already exists.")
        else .httpError 409)) ∧
    ((runCreateTemplate backend500T vfxTemplate).1 =
      .error (if 500 = 409 then
          .creationError ("A template with name " ++ vfxTemplate.name ++ " already exists.")
        else .httpError 500)) :=
  ⟨c4_conflict_translation.1 backend409I instVfx "a1b2c3d4" payloadVfx 409
      (by decide) (by decide),
    c4_conflict_translation.2 backend500T vfxTemplate 500
      (createSizes backend500T vfxTemplate vfxTemplate.sizes).2
      (by decide) (by decide)⟩

/-- The caller-metadata loop never touches the orchestrate group. -/
theorem metadataFromInstance_orchestrate (l : List (String × String)) (m : Metadata) :
    (metadataFromInstance l m).orchestrate = m.orchestrate := by
  induction l generalizing m with
  | nil => rfl
  | cons kv rest ih => simp [metadataFromInstance, ih]

/-- The caller-metadata loop appends each supplied item, in order and with
its key unmodified, to the wire payload list. -/
theorem metadataFromInstance_payload (l : List (String × String)) (m : Metadata) :
    (metadataFromInstance l m).instance_payload = m.instance_payload ++ l := by
  induction l generalizing m with
  | nil => simp [metadataFromInstance]
  | cons kv rest ih => simp [metadataFromInstance, ih]

/-! ## C9 -/

/-- C9: in every metadata merge the orchestrate-reserved group is derived
from the template's stored metadata alone — caller-supplied entries (even
`orchestrate_`-prefixed ones) never reach it; each caller entry instead
lands in the instance-facing payload list with its key unmodified. -/
theorem c9_reserved_only_from_template (inst : Instance) (tmpl : StoredTemplate) :
    (Metadata.parse inst tmpl).orchestrate =
      (Metadata.parse { inst with metadata := [] } tmpl).orchestrate ∧
    (Metadata.parse inst tmpl).instance_payload =
      (Metadata.parse { inst with metadata := [] } tmpl).instance_payload ++
        inst.metadata := by
  unfold Metadata.parse
  refine ⟨?_, ?_⟩
  · rw [metadataFromInstance_orchestrate, metadataFromInstance_orchestrate]
  · rw [metadataFromInstance_payload, metadataFromInstance_payload]
    simp

/-! ## C10 -/

/-- C10: classifying a template-stored key into the reserved group applies
`str.replace('orchestrate_', '')`, which removes EVERY occurrence of the
substring, not only the leading prefix: `orchestrate_a_orchestrate_b` is
stored under `a_b`. -/
theorem c10_replace_removes_all_occurrences (v : String) :
    (Metadata.parse
      { project := "p", zone := "us-central1-a", template := "t", size := "",
        name := "", metadata := [], use_latest_image := false,
        use_external_ip := false }
      { name := "t-s",
        properties := { metadata := [("orchestrate_a_orchestrate_b", v)] } }).orchestrate
      = [("a_b", v)] := by
  have h : pyReplace "orchestrate_a_orchestrate_b" "orchestrate_" "" = "a_b" := by decide
  have hs : pyStartsWith "orchestrate_a_orchestrate_b" "orchestrate_" = true := by decide
  simp [Metadata.parse, metadataFromTemplate, metadataFromInstance, h, hs, dictInsert]

/-! ## C3 -/

/-- C3 (evaluation at the failing input): merging template metadata
`[a=1]` with caller metadata `[a=2]` leaves the wire payload list with the
key `a` twice — the original entry keeps its stale value at its original
position and the override is appended at the end — while the lookup dict
holds the single overridden binding.  The claim (and the class's own
docstring, which calls `instance_payload` "Same as instance") requires the
in-place replacement the dict gets. -/
theorem c3_merge_appends_duplicate_key :
    (Metadata.parse
      { project := "p", zone := "z", template := "t", size := "s", name := "",
        metadata := [("a", "2")], use_latest_image := false,
        use_external_ip := false }
      { name := "t-s", properties := { metadata := [("a", "1")] } }).instance_payload
      = [("a", "1"), ("a", "2")] ∧
    (Metadata.parse
      { project := "p", zone := "z", template := "t", size := "s", name := "",
        metadata := [("a", "2")], use_latest_image := false,
        use_external_ip := false }
      { name := "t-s", properties := { metadata := [("a", "1")] } }).instance_
      = [("a", "2")] := by decide

/-- When the filter leaves exactly one element, `find?` returns it. -/
theorem find?_of_filter_singleton {α : Type} (p : α → Bool) (l : List α) (t : α)
    (h : l.filter p = [t]) : l.find? p = some t := by
  induction l with
  | nil => simp at h
  | cons a rest ih =>
      by_cases hp : p a = true
      · rw [List.filter_cons_of_pos hp] at h
        rw [List.find?_cons_of_pos _ hp]
        injection h with h1 h2
        rw [h1]
      · rw [List.filter_cons_of_neg (by simp [hp])] at h
        rw [List.find?_cons_of_neg _ (by simp [hp])]
        exact ih h

/-! ## C5 -/

/-- C5: for a CreateInstance request without a size, when exactly one stored
template matching the `template-` prefix carries
`orchestrate_default_size = "true"`, resolution returns it; when none does,
the run fails with the "Could not locate default size" error and performs
zero `instances.insert` calls. -/
theorem c5_default_size_selection (b : Backend) (inst : Instance) (u : String)
    (h : inst.size = "") :
    (∀ t, (b.instanceTemplates.filter
        (fun t => pyStartsWith t.name (inst.template ++ "-"))).filter
          hasDefaultSizeMark = [t] →
      get_template b inst = .ok t) ∧
    ((b.instanceTemplates.filter
        (fun t => pyStartsWith t.name (inst.template ++ "-"))).all
          (fun t => !hasDefaultSizeMark t) →
      (runCreateInstance b inst u).1 = .error (.creationError
        ("Could not locate default size for project " ++ inst.project ++
          " template " ++ inst.template ++
          ". Please specify an explicit size in the request.")) ∧
      (runCreateInstance b inst u).2 = []) := by
  constructor
  · intro t ht
    unfold get_template
    rw [if_pos h]
    simp only []
    rw [find?_of_filter_singleton hasDefaultSizeMark _ t ht]
  · intro hall
    have hnone : (b.instanceTemplates.filter
        (fun t => pyStartsWith t.name (inst.template ++ "-"))).find?
          hasDefaultSizeMark = none := by
      apply List.find?_eq_none.mpr
      intro x hx
      have hx2 := (List.all_eq_true.mp hall) x hx
      simp only [Bool.not_eq_true'] at hx2
      simp [hx2]
    have hget : get_template b inst = .error (.creationError
        ("Could not locate default size for project " ++ inst.project ++
          " template " ++ inst.template ++
          ". Please specify an explicit size in the request.")) := by
      unfold get_template
      rw [if_pos h]
      simp only []
      rw [hnone]
    have hbuild : build_instance_payload b inst u = .error (.creationError
        ("Could not locate default size for project " ++ inst.project ++
          " template " ++ inst.template ++
          ". Please specify an explicit size in the request.")) := by
      unfold build_instance_payload
      rw [hget]
    unfold runCreateInstance
    rw [hbuild]
    exact ⟨rfl, rfl⟩

/-- Backend holding only the (unmarked) `vfx-large` stored template. -/
def backendNoDefault : Backend :=
  { backendT with instanceTemplates := [storedVfxLarge] }

/-- Witness for C5: with `vfx-small` the only marked template, resolution
returns it; with only the unmarked `vfx-large` stored, the run fails with
the descriptive error and no insert call. -/
theorem c5_default_size_selection_witness :
    (get_template backendI instVfx = .ok storedVfxSmall) ∧
    ((runCreateInstance backendNoDefault instVfx "a1b2c3d4").1 =
        .error (.creationError
          ("Could not locate default size for project " ++ instVfx.project ++
            " template " ++ instVfx.template ++
            ". Please specify an explicit size in the request.")) ∧
      (runCreateInstance backendNoDefault instVfx "a1b2c3d4").2 = []) :=
  ⟨(c5_default_size_selection backendI instVfx "a1b2c3d4" rfl).1 storedVfxSmall
      (by decide),
    (c5_default_size_selection backendNoDefault instVfx "a1b2c3d4" rfl).2
      (by decide)⟩

/-! ## C8 -/

/-- An image whose `orchestrate_os` label is present but empty, on a
`centos-` family: Python's truthiness test skips stage 1 for it. -/
def imgEmptyOsLabel : Image :=
  { selfLink := "https://www.googleapis.com/compute/v1/projects/ip/global/images/i",
    family := "centos-7", labels := [("orchestrate_os", "")] }

/-- An image labeled `orchestrate_os=windows` whose family starts with
`centos-` (the spec's own example). -/
def imgWinLabelCentos : Image :=
  { selfLink := "https://www.googleapis.com/compute/v1/projects/ip/global/images/w",
    family := "centos-7", labels := [("orchestrate_os", "windows")] }

/-- Counterexample to C8 as stated: an image CARRYING an `orchestrate_os`
label (with value `""`) is not classified as the lower-cased label value —
`get_os_type` falls through to the family name and returns `"linux"`. -/
theorem c8_os_classification_counterexample :
    dictGet imgEmptyOsLabel.labels "orchestrate_os" = some "" ∧
    get_os_type imgEmptyOsLabel = .ok "linux" ∧
    (Except.ok "linux" : Except ApiError String) ≠ .ok (pyLower "") := by decide

/-- C8 (amended: a present but EMPTY `orchestrate_os` label is treated as
absent, by Python truthiness): an image with a non-empty `orchestrate_os`
label classifies as the lower-cased label value regardless of family; only
otherwise is the family name's first hyphen-delimited segment consulted
(`windows` ⇒ windows, a known Linux prefix ⇒ linux, anything else fails). -/
theorem c8_os_classification (img : Image) :
    (∀ v, dictGet img.labels "orchestrate_os" = some v → v ≠ "" →
      get_os_type img = .ok (pyLower v)) ∧
    ((dictGet img.labels "orchestrate_os" = none ∨
      dictGet img.labels "orchestrate_os" = some "") →
      ((pySplitDash img.family).headD "" = "windows" →
        get_os_type img = .ok "windows") ∧
      ((pySplitDash img.family).headD "" ∈ linux_families →
        get_os_type img = .ok "linux") ∧
      ((pySplitDash img.family).headD "" ≠ "windows" →
        (pySplitDash img.family).headD "" ∉ linux_families →
        ∃ msg, get_os_type img = .error (.creationError msg))) := by
  constructor
  · intro v hv hne
    unfold get_os_type
    rw [hv]
    simp [hne]
  · intro hcase
    have hred : get_os_type img = get_os_type_from_family img := by
      unfold get_os_type
      rcases hcase with hnone | hempty
      · rw [hnone]
      · rw [hempty]
        simp
    refine ⟨?_, ?_, ?_⟩
    · intro hw
      rw [hred]
      unfold get_os_type_from_family
      simp only []
      rw [if_pos hw]
    · intro hl
      have hnw : (pySplitDash img.family).headD "" ≠ "windows" := by
        intro he
        have : "windows" ∈ linux_families := he ▸ hl
        exact absurd this (by decide)
      rw [hred]
      unfold get_os_type_from_family
      simp only []
      rw [if_neg hnw, if_pos hl]
    · intro hnw hnl
      rw [hred]
      unfold get_os_type_from_family
      simp only []
      rw [if_neg hnw, if_neg hnl]
      exact ⟨_, rfl⟩

/-- Witness for C8 (amended): the windows-labeled centos-family image
classifies as windows; the unlabeled centos-family image as linux. -/
theorem c8_os_classification_witness :
    get_os_type imgWinLabelCentos = .ok (pyLower "windows") ∧
    get_os_type imgCentos = .ok "linux" :=
  ⟨(c8_os_classification imgWinLabelCentos).1 "windows" (by decide) (by decide),
    ((c8_os_classification imgCentos).2 (.inl (by decide))).2.1 (by decide)⟩

/-- Expanding the built-in default pattern with `str.format` yields exactly
`template-size-id`, whatever the substitution values are. -/
theorem pyFormat_default_pattern (t s r z ty gn gc gt u5 : String) :
    pyFormat "\x7btemplate\x7d-\x7bsize\x7d-\x7bid\x7d"
      [("template", t), ("size", s), ("region", r), ("zone", z), ("type", ty),
       ("gpu_name", gn), ("gpu_count", gc), ("gpu_type", gt), ("user", u5),
       ("id", u5)]
      = some (t ++ "-" ++ s ++ "-" ++ u5) := by
  have h1 : pyFormat "\x7btemplate\x7d-\x7bsize\x7d-\x7bid\x7d"
      [("template", t), ("size", s), ("region", r), ("zone", z), ("type", ty),
       ("gpu_name", gn), ("gpu_count", gc), ("gpu_type", gt), ("user", u5),
       ("id", u5)]
      = some (String.mk (t.data ++ '-' :: (s.data ++ '-' :: (u5.data ++ [])))) := rfl
  rw [h1]
  refine congrArg some (String.ext ?_)
  simp [String.data_append]

/-! ## C6 -/

/-- C6: instance-name resolution follows strict precedence — an explicit
request name is always the pattern that gets expanded (the stored pattern
is never consulted), a non-empty stored `instance_name_pattern` is expanded
whenever no explicit name is given, and with neither the default pattern
produces exactly `template ++ "-" ++ size ++ "-" ++ token` for the
requested template and size. -/
theorem c6_name_precedence :
    (∀ (inst : Instance) (orch : List (String × String)) (u : String),
      inst.name ≠ "" →
      build_name inst orch u = pyFormat inst.name (buildNameVars inst orch u)) ∧
    (∀ (inst : Instance) (orch : List (String × String)) (u p : String),
      inst.name = "" → dictGet orch "instance_name_pattern" = some p → p ≠ "" →
      build_name inst orch u = pyFormat p (buildNameVars inst orch u)) ∧
    (∀ (inst : Instance) (orch : List (String × String)) (u : String),
      inst.name = "" →
      (dictGet orch "instance_name_pattern" = none ∨
       dictGet orch "instance_name_pattern" = some "") →
      build_name inst orch u =
        some (inst.template ++ "-" ++ inst.size ++ "-" ++ pyTake u 5)) := by
  refine ⟨?_, ?_, ?_⟩
  · intro inst orch u h
    unfold build_name
    simp only []
    rw [if_pos h]
  · intro inst orch u p h hp hne
    unfold build_name
    simp only []
    rw [if_neg (by simp [h]), hp]
    simp only []
    rw [if_pos hne]
  · intro inst orch u h hcase
    unfold build_name
    simp only []
    rw [if_neg (by simp [h])]
    rcases hcase with hnone | hempty
    · rw [hnone]
      simp only [buildNameVars]
      exact pyFormat_default_pattern _ _ _ _ _ _ _ _ _
    · rw [hempty]
      simp only []
      rw [if_neg (by simp)]
      simp only [buildNameVars]
      exact pyFormat_default_pattern _ _ _ _ _ _ _ _ _

/-- Witness for C6: an explicit name expands itself; a stored pattern is
used when no name is given; with neither, the name is `vfx--` + token
(requested size empty). -/
theorem c6_name_precedence_witness :
    (build_name { instVfx with name := "mybox" } [("instance_name_pattern", "ignored")] "a1b2c3d4" =
      pyFormat "mybox" (buildNameVars { instVfx with name := "mybox" }
        [("instance_name_pattern", "ignored")] "a1b2c3d4")) ∧
    (build_name instVfx [("instance_name_pattern", "w-\x7bzone\x7d")] "a1b2c3d4" =
      pyFormat "w-\x7bzone\x7d" (buildNameVars instVfx
        [("instance_name_pattern", "w-\x7bzone\x7d")] "a1b2c3d4")) ∧
    (build_name instVfx [] "a1b2c3d4" =
      some (instVfx.template ++ "-" ++ instVfx.size ++ "-" ++ pyTake "a1b2c3d4" 5)) :=
  ⟨c6_name_precedence.1 { instVfx with name := "mybox" }
      [("instance_name_pattern", "ignored")] "a1b2c3d4" (by decide),
    c6_name_precedence.2.1 instVfx [("instance_name_pattern", "w-\x7bzone\x7d")]
      "a1b2c3d4" "w-\x7bzone\x7d" rfl (by decide) (by decide),
    c6_name_precedence.2.2 instVfx [] "a1b2c3d4" rfl (.inl rfl)⟩

/-! ## C2 -/

/-- The payload `CreateInstance(template="vfx")` produces as a function of
the generated 5-character token: identical to `payloadVfx` except for the
name. -/
def payloadVfxOf (tok : String) : InstancePayload :=
  { payloadVfx with name := "vfx--" ++ tok }

/-- Counterexample to C2 as stated: resolution does pick `vfx-small`, but
the generated instance name is `vfx--a1b2c` — `build_name` substitutes the
REQUESTED size (empty here), not the resolved one, so the name does not
start with `vfx-small-`. -/
theorem c2_vfx_scenario_counterexample :
    (get_template backendI instVfx).map (fun t => t.name) = .ok "vfx-small" ∧
    (build_instance_payload backendI instVfx "a1b2c3d4").map (fun p => p.name) =
      .ok "vfx--a1b2c" ∧
    pyStartsWith "vfx--a1b2c" "vfx-small-" = false := by decide

/-- C2 (amended: the name token follows `vfx--`, since the default pattern
substitutes the requested — empty — size, not the resolved one): the
request resolves to the stored `vfx-small` template, the produced name is
`vfx--` followed by the 5-character hexadecimal token, and the machineType
URL ends in `/machineTypes/custom-4-16384`. -/
theorem c2_vfx_scenario (uuid_hex : String) (hlen : 5 ≤ uuid_hex.data.length)
    (hhex : ∀ c ∈ uuid_hex.data, c.isDigit = true ∨ ('a' ≤ c ∧ c ≤ 'f')) :
    get_template backendI instVfx = .ok storedVfxSmall ∧
    build_instance_payload backendI instVfx uuid_hex =
      .ok (payloadVfxOf (pyTake uuid_hex 5)) ∧
    (payloadVfxOf (pyTake uuid_hex 5)).name = "vfx--" ++ pyTake uuid_hex 5 ∧
    pyEndsWith (payloadVfxOf (pyTake uuid_hex 5)).machineType
      "/machineTypes/custom-4-16384" = true ∧
    (pyTake uuid_hex 5).data.length = 5 ∧
    (∀ c ∈ (pyTake uuid_hex 5).data, c.isDigit = true ∨ ('a' ≤ c ∧ c ≤ 'f')) := by
  have hget : get_template backendI instVfx = .ok storedVfxSmall := by decide
  have hname : build_name instVfx (Metadata.parse instVfx storedVfxSmall).orchestrate
      uuid_hex = some ("vfx--" ++ pyTake uuid_hex 5) := by
    have h0 : build_name instVfx (Metadata.parse instVfx storedVfxSmall).orchestrate
        uuid_hex
        = pyFormat "\x7btemplate\x7d-\x7bsize\x7d-\x7bid\x7d"
          [("template", "vfx"), ("size", ""), ("region", "us-central1"),
           ("zone", "us-central1-a"), ("type", "vws"),
           ("gpu_name", "nvidia-tesla-t4"), ("gpu_count", "1"),
           ("gpu_type", "nvidia-tesla-t4-vws"), ("user", pyTake uuid_hex 5),
           ("id", pyTake uuid_hex 5)] := rfl
    rw [h0, pyFormat_default_pattern]
    exact congrArg some (congrArg (fun x => x ++ pyTake uuid_hex 5) (by decide))
  refine ⟨hget, ?_, rfl, rfl, ?_, ?_⟩
  · unfold build_instance_payload
    rw [hget]
    simp only []
    rw [hname]
    rfl
  · show (uuid_hex.data.take 5).length = 5
    rw [List.length_take]
    omega
  · intro c hc
    simp only [pyTake] at hc
    exact hhex c (List.take_subset _ _ hc)

/-- Witness for C2 (amended), at `uuid.uuid4().hex =
"0123456789abcdef0123456789abcdef"`. -/
theorem c2_vfx_scenario_witness :
    5 ≤ ("0123456789abcdef0123456789abcdef" : String).data.length ∧
    (∀ c ∈ ("0123456789abcdef0123456789abcdef" : String).data,
      c.isDigit = true ∨ ('a' ≤ c ∧ c ≤ 'f')) ∧
    (get_template backendI instVfx = .ok storedVfxSmall ∧
      build_instance_payload backendI instVfx "0123456789abcdef0123456789abcdef" =
        .ok (payloadVfxOf (pyTake "0123456789abcdef0123456789abcdef" 5)) ∧
      (payloadVfxOf (pyTake "0123456789abcdef0123456789abcdef" 5)).name =
        "vfx--" ++ pyTake "0123456789abcdef0123456789abcdef" 5 ∧
      pyEndsWith (payloadVfxOf (pyTake "0123456789abcdef0123456789abcdef" 5)).machineType
        "/machineTypes/custom-4-16384" = true ∧
      (pyTake "0123456789abcdef0123456789abcdef" 5).data.length = 5 ∧
      (∀ c ∈ (pyTake "0123456789abcdef0123456789abcdef" 5).data,
        c.isDigit = true ∨ ('a' ≤ c ∧ c ≤ 'f'))) :=
  ⟨by decide, by decide,
    c2_vfx_scenario "0123456789abcdef0123456789abcdef" (by decide) (by decide)⟩

/-! ## C7 -/

/-- C7: in the submitted instance payload, with `use_latest_image = false`
every disk's `sourceImage` (in particular the boot disk's) is identical to
the value stored in the resolved template; with `use_latest_image = true`
each boot disk's `sourceImage` is replaced by `latest.selfLink`, where
`latest` is what `images.getFromFamily` returns for the family of the image
the stored link pins (last conjunct). -/
theorem c7_use_latest_image (b : Backend) (inst : Instance) (u : String)
    (tmpl : StoredTemplate) (disks : List Disk) (img latest : Image)
    (payload : InstancePayload)
    (hget : get_template b inst = .ok tmpl)
    (hdisks : tmpl.properties.disks = some disks)
    (hboot : get_boot_images b disks = .ok (img, latest))
    (hbuild : build_instance_payload b inst u = .ok payload) :
    (inst.use_latest_image = false →
      payload.disks.map (fun d => d.initializeParams.sourceImage) =
        disks.map (fun d => d.initializeParams.sourceImage)) ∧
    (inst.use_latest_image = true →
      payload.disks.map (fun d => (d.boot, d.initializeParams.sourceImage)) =
        disks.map (fun d => (d.boot,
          if d.boot then latest.selfLink else d.initializeParams.sourceImage))) ∧
    (∃ d0 project version,
      disks.find? (fun d => d.boot) = some d0 ∧
      parse_image_link d0.initializeParams.sourceImage = some (project, version) ∧
      b.images_get project version = .ok img ∧
      b.images_getFromFamily project img.family = .ok latest) := by
  unfold build_instance_payload at hbuild
  rw [hget] at hbuild
  simp only [] at hbuild
  cases hn : build_name inst (Metadata.parse inst tmpl).orchestrate u with
  | none => rw [hn] at hbuild; simp at hbuild
  | some nm =>
    rw [hn] at hbuild
    simp only [] at hbuild
    rw [hdisks] at hbuild
    simp only [] at hbuild
    rw [hboot] at hbuild
    simp only [] at hbuild
    cases hni : tmpl.properties.networkInterfaces with
    | none => rw [hni] at hbuild; simp at hbuild
    | some ifs =>
      rw [hni] at hbuild
      simp only [] at hbuild
      cases hss : set_startup_script b (Metadata.parse inst tmpl)
          (if inst.use_latest_image then latest else img) with
      | error e => rw [hss] at hbuild; simp at hbuild
      | ok md2 =>
        rw [hss] at hbuild
        simp only [Except.ok.injEq] at hbuild
        subst hbuild
        refine ⟨?_, ?_, ?_⟩
        · intro hfalse
          simp [List.map_map, hfalse]
        · intro htrue
          rw [List.map_map]
          refine List.map_congr_left ?_
          intro d hd
          by_cases hb : d.boot <;> simp [htrue, hb]
        · unfold get_boot_images at hboot
          cases hf : disks.find? (fun d => d.boot) with
          | none => rw [hf] at hboot; simp at hboot
          | some d0 =>
            rw [hf] at hboot
            unfold get_images at hboot
            simp only [] at hboot
            cases hpl : parse_image_link d0.initializeParams.sourceImage with
            | none => rw [hpl] at hboot; simp at hboot
            | some pv =>
              obtain ⟨project, version⟩ := pv
              rw [hpl] at hboot
              simp only [] at hboot
              cases hig : b.images_get project version with
              | error st => rw [hig] at hboot; simp at hboot
              | ok image_ =>
                rw [hig] at hboot
                simp only [] at hboot
                cases hff : b.images_getFromFamily project image_.family with
                | error st => rw [hff] at hboot; simp at hboot
                | ok lat =>
                  rw [hff] at hboot
                  simp only [Except.ok.injEq, Prod.mk.injEq] at hboot
                  obtain ⟨h1, h2⟩ := hboot
                  subst h1
                  subst h2
                  exact ⟨d0, project, version, by simp [hf], hpl, hig, hff⟩

/-- `CreateInstance(template="vfx", use_latest_image=true)`. -/
def instVfxLatest : Instance := { instVfx with use_latest_image := true }

/-- The disks stored in the `vfx-small` instanceTemplate. -/
def disksVfx : List Disk := (storedVfxSmall.properties.disks).getD []

/-- The payload submitted for `instVfxLatest` (uuid hex `"a1b2c3d4"`). -/
def payloadVfxLatest : InstancePayload :=
  match build_instance_payload backendI instVfxLatest "a1b2c3d4" with
  | .ok p => p
  | .error _ =>
      { name := "", description := "", machineType := "",
        networkInterfaces := [], disks := [], metadata := [] }

/-- Witness for C7, on the `vfx` scenario with `use_latest_image = true`. -/
theorem c7_use_latest_image_witness :
    (instVfxLatest.use_latest_image = false →
      payloadVfxLatest.disks.map (fun d => d.initializeParams.sourceImage) =
        disksVfx.map (fun d => d.initializeParams.sourceImage)) ∧
    (instVfxLatest.use_latest_image = true →
      payloadVfxLatest.disks.map (fun d => (d.boot, d.initializeParams.sourceImage)) =
        disksVfx.map (fun d => (d.boot,
          if d.boot then imgCentos.selfLink else d.initializeParams.sourceImage))) ∧
    (∃ d0 project version,
      disksVfx.find? (fun d => d.boot) = some d0 ∧
      parse_image_link d0.initializeParams.sourceImage = some (project, version) ∧
      backendI.images_get project version = .ok imgCentos ∧
      backendI.images_getFromFamily project imgCentos.family = .ok imgCentos) :=
  c7_use_latest_image backendI instVfxLatest "a1b2c3d4" storedVfxSmall disksVfx
    imgCentos imgCentos payloadVfxLatest (by decide) (by decide) (by decide) (by decide)
